import Mathlib

/-!
# wails-todos: the tracked todo file and its watcher (`todos.go`)

A shallow embedding of the `Todos` type of `todos.go`.  The Go methods mutate a
`*Todos` receiver and talk to four collaborators that live outside the
repository: the operating system's files (`os.Stat`, `ioutil.ReadFile`,
`ioutil.WriteFile`), the `fsnotify` watcher, the wails runtime (event bus,
window title, dialogs) and the wails logger.  Each collaborator is a component
of an explicit state that every method takes and returns.

Environment assumptions, stated once:

* a file system is a finite-support map from path to file (content and
  permission bits); the umask is not modelled;
* `ioutil.ReadFile` fails at open, with no bytes, on an absent path; on a
  present path it can fail after open with an input/output error, and then
  returns the bytes read so far together with the error (the `readErr` field
  says after how many bytes); data just written by a successful
  `ioutil.WriteFile` reads back in full;
* whether `ioutil.WriteFile`, the kernel call of `Watcher.Remove` and
  `Watcher.Add` fail on a path is decided by the environment (the `writeErr`,
  `removeErr`, `addErr` fields); a failed `ioutil.WriteFile` or `Watcher.Add`
  changes neither the files nor the watch set; `Watcher.Remove` drops the path
  from its watch list before it calls the kernel, as the inotify backend of
  fsnotify does, so the path is gone from the watch set even when the call
  fails;
* Go strings are byte strings; the conversions `[]byte(s)` and `string(b)`
  are inverse to each other and are the identity in the model;
* the two channels the goroutine of `startWatcher` selects on are merged into
  the one sequence of receptions the goroutine actually performs.
-/

namespace WailsTodos

/-! ## Values shared with the collaborators -/

/-- Go `error` value: the text of its `Error()` method and whether
`os.IsNotExist` recognises it. -/
structure GoError where
  msg : String
  notExist : Bool := false
deriving DecidableEq, Repr

/-- Regular file: its bytes and its permission bits. -/
structure FileData where
  content : String
  perm : Nat
deriving DecidableEq, Repr

/-- Files of the operating system.  `files` is the content of every path,
`writeErr` the error `ioutil.WriteFile` meets at a path (`none`: the path can
be written), `writes` the calls of `ioutil.WriteFile` made so far, oldest
first, as (path, data), `readErr` the input/output error a read of the data
stored at a path meets after open, with the number of bytes read before it
(`none`: the data reads in full). -/
structure FileSystem where
  files : String → Option FileData
  writeErr : String → Option GoError
  writes : List (String × String)
  readErr : String → Option (Nat × GoError)

/-- Watch set of an `fsnotify.Watcher`, with the errors the kernel interface
would report when a path is removed or added (`none`: no error). -/
structure Watcher where
  watched : List String
  removeErr : String → Option GoError
  addErr : String → Option GoError

/-- Optional argument of an emitted event. -/
inductive Arg where
  | str (s : String)
  | int (n : Int)
deriving DecidableEq, Repr

/-- Call of `runtime.Events.Emit`: the event name and its optional data. -/
structure Emitted where
  name : String
  data : List Arg
deriving DecidableEq, Repr

/-- Severity of a log line. -/
inductive Level where
  | info
  | error
deriving DecidableEq, Repr

/-- Line written through the `wails.CustomLogger`. -/
structure LogLine where
  level : Level
  text : String
deriving DecidableEq, Repr

/-- What the code uses of `wails.Runtime`: the events emitted so far (oldest
first) and the window title. -/
structure Runtime where
  events : List Emitted
  title : String
deriving DecidableEq, Repr

/-- Receiver of every method: the four fields of the Go struct (`logger` as
the lines logged so far) and the file system the process runs on. -/
structure Todos where
  filename : String
  runtime : Runtime
  logger : List LogLine
  watcher : Watcher
  fs : FileSystem

/-! ## The collaborators -/

namespace os

/-- Model of `os.Stat`, error part: a path that holds no file gives an error
that `os.IsNotExist` recognises. -/
def Stat (fs : FileSystem) (name : String) : Option GoError :=
  match fs.files name with
  | some _ => none
  | none => some ⟨"stat " ++ name ++ ": no such file or directory", true⟩

/-- Model of `os.IsNotExist`. -/
def IsNotExist (err : Option GoError) : Bool :=
  match err with
  | some e => e.notExist
  | none => false

end os

namespace ioutil

/-- Model of `ioutil.ReadFile`: no bytes and an error when the path cannot be
opened; the bytes read so far and the error when a read fails after open; the
whole content otherwise. -/
def ReadFile (fs : FileSystem) (filename : String) : String × Option GoError :=
  match fs.files filename with
  | none => ("", some ⟨"open " ++ filename ++ ": no such file or directory", true⟩)
  | some f =>
    match fs.readErr filename with
    | some (n, e) => (String.mk (f.content.data.take n), some e)
    | none => (f.content, none)

/-- Model of `ioutil.WriteFile`: the call is recorded; when the path can be
written the file gets exactly `data`, keeping its permission bits when it was
there already and getting `perm` when it is created, and the new data reads
in full. -/
def WriteFile (fs : FileSystem) (filename data : String) (perm : Nat) :
    FileSystem × Option GoError :=
  let fs1 : FileSystem := { fs with writes := fs.writes ++ [(filename, data)] }
  match fs.writeErr filename with
  | some e => (fs1, some e)
  | none =>
    let mode := match fs.files filename with
      | some f => f.perm
      | none => perm
    ({ fs1 with
        files := fun q => if q = filename then some ⟨data, mode⟩ else fs.files q,
        readErr := fun q => if q = filename then none else fs.readErr q }, none)

end ioutil

/-- Model of `(*fsnotify.Watcher).Remove` (inotify backend): a path that is
not watched gives an error and changes nothing; a watched path is dropped from
the watch list first, and the result is then the one of the kernel call, so
that a failing kernel call leaves the path unwatched as well. -/
def Watcher.Remove (w : Watcher) (name : String) : Watcher × Option GoError :=
  if name ∈ w.watched then
    let w1 : Watcher := { w with watched := w.watched.filter (fun q => q ≠ name) }
    match w.removeErr name with
    | some e => (w1, some e)
    | none => (w1, none)
  else
    (w, some ⟨"can't remove non-existent inotify watch for: " ++ name, false⟩)

/-- Model of `(*fsnotify.Watcher).Add`: fails when the environment says so;
otherwise the path is in the watch set afterwards (once). -/
def Watcher.Add (w : Watcher) (name : String) : Watcher × Option GoError :=
  match w.addErr name with
  | some e => (w, some e)
  | none =>
    if name ∈ w.watched then (w, none)
    else ({ w with watched := w.watched ++ [name] }, none)

/-- Effect of `t.runtime.Events.Emit(name, data...)`. -/
def Todos.emit (t : Todos) (name : String) (data : List Arg) : Todos :=
  { t with runtime := { t.runtime with events := t.runtime.events ++ [⟨name, data⟩] } }

/-- Effect of `t.runtime.Window.SetTitle(title)`. -/
def Todos.setTitle (t : Todos) (title : String) : Todos :=
  { t with runtime := { t.runtime with title := title } }

/-- Effect of `t.logger.Info(text)` and of `t.logger.Infof` once formatted. -/
def Todos.logInfo (t : Todos) (text : String) : Todos :=
  { t with logger := t.logger ++ [⟨Level.info, text⟩] }

/-- Effect of `t.logger.Error(text)`. -/
def Todos.logError (t : Todos) (text : String) : Todos :=
  { t with logger := t.logger ++ [⟨Level.error, text⟩] }

/-! ## The methods of `todos.go` -/

/-- Method `ensureFileExists`: the result of `ioutil.WriteFile` is dropped. -/
def Todos.ensureFileExists (t : Todos) : Todos :=
  let err := os.Stat t.fs t.filename
  if os.IsNotExist err then
    { t with fs := (ioutil.WriteFile t.fs t.filename "[]" 0o600).1 }
  else
    t

/-- Method `setFilename`. -/
def Todos.setFilename (t : Todos) (filename : String) : Todos × Option GoError :=
  match t.watcher.Remove t.filename with
  | (w1, some err) => ({ t with watcher := w1 }, some err)
  | (w1, none) =>
    let t1 : Todos := { t with watcher := w1, filename := filename }
    match t1.watcher.Add filename with
    | (w2, some err) => ({ t1 with watcher := w2 }, some err)
    | (w2, none) =>
      let t2 : Todos := { t1 with watcher := w2 }
      let t3 := t2.logInfo ("Now watching: " ++ filename)
      (t3.setTitle filename, none)

/-- Method `saveListByName`. -/
def Todos.saveListByName (t : Todos) (todos filename : String) : Todos × Option GoError :=
  let r := ioutil.WriteFile t.fs filename todos 0o600
  ({ t with fs := r.1 }, r.2)

/-- Method `LoadNewList`; `selected` is what `Dialog.SelectFile()` returns.
The error of `setFilename` is dropped. -/
def Todos.LoadNewList (t : Todos) (selected : String) : Todos :=
  let filename := selected
  if filename.utf8ByteSize > 0 then
    let t1 := (t.setFilename filename).1
    t1.emit "filemodified" []
  else
    t

/-- What the goroutine of `startWatcher` receives in one pass through its
`select`: a value or the closing of one of the two channels. -/
inductive Recv where
  | event (name : String) (op : Nat)
  | eventsClosed
  | error (err : GoError)
  | errorsClosed
deriving DecidableEq, Repr

/-- One pass through the `for`/`select` of the goroutine of `startWatcher`;
`none` when the goroutine returns.  `Write` is the constant `fsnotify.Write`. -/
def Todos.dispatchStep (Write : Nat) (t : Todos) : Recv → Option Todos
  | Recv.event name op =>
    if op &&& Write = Write then
      let t1 := t.logInfo ("modified file: " ++ name)
      some (t1.emit "filemodified" [])
    else
      some t
  | Recv.eventsClosed => none
  | Recv.error err => some (t.logError err.msg)
  | Recv.errorsClosed => none

/-- The goroutine of `startWatcher` run over the receptions `rs`: the state it
reaches and whether it is still looping (`false`: it has returned). -/
def Todos.dispatch (Write : Nat) : Todos → List Recv → Todos × Bool
  | t, [] => (t, true)
  | t, r :: rs =>
    match t.dispatchStep Write r with
    | none => (t, false)
    | some t1 => Todos.dispatch Write t1 rs

/-- Method `LoadList`: the new state, the returned string and the returned
error. -/
def Todos.LoadList (t : Todos) : Todos × String × Option GoError :=
  let t1 := t.logInfo ("Loading list from: " ++ t.filename)
  let r := ioutil.ReadFile t1.fs t1.filename
  let bytes := r.1
  let err : Option GoError :=
    if r.2 ≠ none then some ⟨"Unable to open list: " ++ t1.filename, false⟩ else r.2
  let t2 := t1.emit "error" [Arg.str "I am from go!", Arg.int 1234]
  (t2, bytes, err)

/-- Method `SaveList`. -/
def Todos.SaveList (t : Todos) (todos : String) : Todos × Option GoError :=
  let t1 := t.logInfo ("Saving list: " ++ todos)
  t1.saveListByName todos t1.filename

/-- Method `SaveAs`; `selected` is what `Dialog.SelectSaveFile()` returns. -/
def Todos.SaveAs (t : Todos) (selected todos : String) : Todos × Option GoError :=
  let filename := selected
  let t1 := t.logInfo ("Save As: " ++ filename)
  match t1.saveListByName todos filename with
  | (t2, some err) => (t2, some err)
  | (t2, none) => t2.setFilename filename

/-! ## Concrete states used to evaluate the methods -/

/-- Environment answer "no error on any path". -/
def noErr : String → Option GoError := fun _ => none

/-- Error of the kernel for a path that does not exist. -/
def enoent : GoError := ⟨"open : no such file or directory", true⟩

/-- Error of the kernel when a file may not be created. -/
def eacces : GoError := ⟨"open /home/u/mylist.json: permission denied", false⟩

/-- Error of the kernel when no further watch can be registered. -/
def enospc : GoError := ⟨"no space left on device", false⟩

/-- Tracker started on `/tmp/a.json`, which holds `[]`; nothing fails, save
for a write to the empty path. -/
def started : Todos where
  filename := "/tmp/a.json"
  runtime := ⟨[], "/tmp/a.json"⟩
  logger := []
  watcher := ⟨["/tmp/a.json"], noErr, noErr⟩
  fs := ⟨fun q => if q = "/tmp/a.json" then some ⟨"[]", 0o600⟩ else none,
    fun q => if q = "" then some enoent else none, [], fun _ => none⟩

/-- Tracker at its default path in a home directory where the file is absent
and may not be created. -/
def lockedHome : Todos where
  filename := "/home/u/mylist.json"
  runtime := ⟨[], "/home/u/mylist.json"⟩
  logger := []
  watcher := ⟨[], noErr, noErr⟩
  fs := ⟨fun _ => none,
    fun q => if q = "/home/u/mylist.json" then some eacces else none, [], fun _ => none⟩

/-- Tracker at its default path in a home directory where the file is absent
and can be created. -/
def freshHome : Todos where
  filename := "/home/u/mylist.json"
  runtime := ⟨[], "/home/u/mylist.json"⟩
  logger := []
  watcher := ⟨[], noErr, noErr⟩
  fs := ⟨fun _ => none, noErr, [], fun _ => none⟩

/-- Tracker started on `/tmp/a.json` whose watcher cannot register
`/tmp/b.json`. -/
def exhausted : Todos where
  filename := "/tmp/a.json"
  runtime := ⟨[], "/tmp/a.json"⟩
  logger := []
  watcher := ⟨["/tmp/a.json"], noErr,
    fun q => if q = "/tmp/b.json" then some enospc else none⟩
  fs := ⟨fun q => if q = "/tmp/a.json" then some ⟨"[]", 0o600⟩ else none, noErr, [], fun _ => none⟩

/-- Tracker started on `/tmp/a.json` whose watcher cannot release it. -/
def stuck : Todos where
  filename := "/tmp/a.json"
  runtime := ⟨[], "/tmp/a.json"⟩
  logger := []
  watcher := ⟨["/tmp/a.json"],
    fun q => if q = "/tmp/a.json" then some ⟨"invalid argument", false⟩ else none, noErr⟩
  fs := ⟨fun q => if q = "/tmp/a.json" then some ⟨"[]", 0o600⟩ else none, noErr, [], fun _ => none⟩

/-- Tracker whose tracked file has been deleted behind its back. -/
def orphaned : Todos where
  filename := "/tmp/a.json"
  runtime := ⟨[], "/tmp/a.json"⟩
  logger := []
  watcher := ⟨["/tmp/a.json"], noErr, noErr⟩
  fs := ⟨fun _ => none, noErr, [], fun _ => none⟩

/-- Error of the kernel when a read of `/tmp/a.json` fails after open. -/
def eio : GoError := ⟨"read /tmp/a.json: input/output error", false⟩

/-- Tracker started on `/tmp/a.json`, which holds `[1,2,3]` on a medium that
fails after the first three bytes have been read. -/
def damaged : Todos where
  filename := "/tmp/a.json"
  runtime := ⟨[], "/tmp/a.json"⟩
  logger := []
  watcher := ⟨["/tmp/a.json"], noErr, noErr⟩
  fs := ⟨fun q => if q = "/tmp/a.json" then some ⟨"[1,2,3]", 0o600⟩ else none, noErr, [],
    fun q => if q = "/tmp/a.json" then some (3, eio) else none⟩

/-- Tracker started on `/tmp/a.json` next to a second list `/tmp/b.json`;
nothing fails. -/
def twoLists : Todos where
  filename := "/tmp/a.json"
  runtime := ⟨[], "/tmp/a.json"⟩
  logger := []
  watcher := ⟨["/tmp/a.json"], noErr, noErr⟩
  fs := ⟨fun q => if q = "/tmp/a.json" ∨ q = "/tmp/b.json" then some ⟨"[]", 0o600⟩ else none,
    noErr, [], fun _ => none⟩

/-! ## Round trip and load (`SaveList`, `LoadList`) -/

theorem WriteFile_ok (fs : FileSystem) (p data : String) (perm : Nat)
    (h : fs.writeErr p = none) :
    (ioutil.WriteFile fs p data perm).2 = none ∧
    (∃ f, (ioutil.WriteFile fs p data perm).1.files p = some f ∧ f.content = data) ∧
    ∀ q, q ≠ p → (ioutil.WriteFile fs p data perm).1.files q = fs.files q := by
  refine ⟨?_, ?_, ?_⟩
  · simp [ioutil.WriteFile, h]
  · simp [ioutil.WriteFile, h]
  · intro q hq
    simp [ioutil.WriteFile, h, hq]

/-- C1. Whenever the tracked file can be written, `SaveList s` returns no
error and the `LoadList` that follows at once returns exactly `s` and no
error. -/
theorem SaveList_LoadList_round_trip (t : Todos) (s : String)
    (hw : t.fs.writeErr t.filename = none) :
    (t.SaveList s).2 = none ∧ (t.SaveList s).1.LoadList.2 = (s, none) := by
  simp [Todos.SaveList, Todos.saveListByName, Todos.LoadList, Todos.logInfo, Todos.emit,
    ioutil.WriteFile, ioutil.ReadFile, hw]

theorem SaveList_LoadList_round_trip_witness :
    started.fs.writeErr started.filename = none ∧
    (started.SaveList "[1]").2 = none ∧
    (started.SaveList "[1]").1.LoadList.2 = ("[1]", none) :=
  ⟨by decide, SaveList_LoadList_round_trip started "[1]" (by decide)⟩

/-- C9, as stated, fails: when the read of the tracked file fails after
three bytes, `LoadList` returns those three bytes, not the empty string,
together with its error. -/
theorem LoadList_returns_bytes_read_so_far :
    (ioutil.ReadFile damaged.fs damaged.filename).2 ≠ none ∧
    damaged.LoadList.2 = ("[1,", some ⟨"Unable to open list: /tmp/a.json", false⟩) ∧
    damaged.LoadList.2.1 ≠ "" := by
  decide

/-- C9, amended. When reading the tracked path fails, `LoadList` returns the
error `Unable to open list: ` followed by the tracked path, together with the
bytes `ioutil.ReadFile` returned, unchanged: the empty string when the path
cannot be opened, the bytes read so far when the read fails after open.  Its
error is nil exactly when the read succeeds, and the string is then the whole
content of the tracked file. -/
theorem LoadList_failure (t : Todos) :
    ((ioutil.ReadFile t.fs t.filename).2 ≠ none →
      t.LoadList.2 = ((ioutil.ReadFile t.fs t.filename).1,
        some ⟨"Unable to open list: " ++ t.filename, false⟩)) ∧
    (t.fs.files t.filename = none →
      t.LoadList.2 = ("", some ⟨"Unable to open list: " ++ t.filename, false⟩)) ∧
    (∀ f n e, t.fs.files t.filename = some f → t.fs.readErr t.filename = some (n, e) →
      t.LoadList.2 = (String.mk (f.content.data.take n),
        some ⟨"Unable to open list: " ++ t.filename, false⟩)) ∧
    (t.LoadList.2.2 = none ↔ (ioutil.ReadFile t.fs t.filename).2 = none) ∧
    (t.LoadList.2.2 = none →
      ∃ f, t.fs.files t.filename = some f ∧ t.LoadList.2.1 = f.content) := by
  cases h : t.fs.files t.filename with
  | none => simp [Todos.LoadList, Todos.logInfo, Todos.emit, ioutil.ReadFile, h]
  | some f =>
    cases hr : t.fs.readErr t.filename with
    | none => simp [Todos.LoadList, Todos.logInfo, Todos.emit, ioutil.ReadFile, h, hr]
    | some ne =>
      obtain ⟨n, e⟩ := ne
      simp [Todos.LoadList, Todos.logInfo, Todos.emit, ioutil.ReadFile, h, hr]

theorem LoadList_failure_witness :
    (ioutil.ReadFile orphaned.fs orphaned.filename).2 ≠ none ∧
    orphaned.LoadList.2 = ("", some ⟨"Unable to open list: /tmp/a.json", false⟩) ∧
    damaged.LoadList.2 = ("[1,", some ⟨"Unable to open list: /tmp/a.json", false⟩) ∧
    started.LoadList.2 = ("[]", none) :=
  ⟨by decide, (LoadList_failure orphaned).2.1 (by decide),
    (LoadList_failure damaged).1 (by decide), by decide⟩

/-- C10. Every call of `LoadList` appends exactly one event to the emitted
events, the event `error` with data `I am from go!` and `1234`, whatever the
outcome of the read. -/
theorem LoadList_emits_error_event (t : Todos) :
    t.LoadList.1.runtime.events =
      t.runtime.events ++ [⟨"error", [Arg.str "I am from go!", Arg.int 1234]⟩] := by
  simp [Todos.LoadList, Todos.logInfo, Todos.emit]

theorem LoadList_emits_error_event_witness :
    orphaned.LoadList.1.runtime.events = [⟨"error", [Arg.str "I am from go!", Arg.int 1234]⟩] ∧
    started.LoadList.1.runtime.events = [⟨"error", [Arg.str "I am from go!", Arg.int 1234]⟩] :=
  ⟨LoadList_emits_error_event orphaned, LoadList_emits_error_event started⟩

/-! ## Bootstrap (`ensureFileExists`) -/

theorem ensureFileExists_present (t : Todos) (h : t.fs.files t.filename ≠ none) :
    t.ensureFileExists = t := by
  cases hf : t.fs.files t.filename with
  | none => exact absurd hf h
  | some f => simp [Todos.ensureFileExists, os.Stat, os.IsNotExist, hf]

theorem ensureFileExists_absent (t : Todos) (h : t.fs.files t.filename = none) :
    t.ensureFileExists = { t with fs := (ioutil.WriteFile t.fs t.filename "[]" 0o600).1 } := by
  simp [Todos.ensureFileExists, os.Stat, os.IsNotExist, h]

/-- C2, as stated, fails: in a home directory where the tracked path is absent
and may not be created, `ensureFileExists` does not create the file. -/
theorem ensureFileExists_absent_not_created :
    lockedHome.fs.files lockedHome.filename = none ∧
    lockedHome.ensureFileExists.fs.files lockedHome.filename = none ∧
    lockedHome.ensureFileExists.fs.files lockedHome.filename ≠ some ⟨"[]", 0o600⟩ := by
  decide

/-- C2, amended. Where the tracked path is absent and can be written,
`ensureFileExists` creates it with content `[]` and mode 0600 and changes no
other path; where the tracked path is present, whatever its content, the whole
state is unchanged; and calling it twice always leaves the same files as
calling it once. -/
theorem ensureFileExists_bootstrap (t : Todos) :
    (t.fs.files t.filename = none → t.fs.writeErr t.filename = none →
      t.ensureFileExists.fs.files t.filename = some ⟨"[]", 0o600⟩ ∧
      ∀ q, q ≠ t.filename → t.ensureFileExists.fs.files q = t.fs.files q) ∧
    (t.fs.files t.filename ≠ none → t.ensureFileExists = t) ∧
    t.ensureFileExists.ensureFileExists.fs.files = t.ensureFileExists.fs.files := by
  refine ⟨?_, ensureFileExists_present t, ?_⟩
  · intro ha hw
    rw [ensureFileExists_absent t ha]
    refine ⟨?_, ?_⟩
    · simp [ioutil.WriteFile, hw, ha]
    · intro q hq
      simp [ioutil.WriteFile, hw, hq]
  · cases hf : t.fs.files t.filename with
    | some f =>
      have h1 : t.ensureFileExists = t := ensureFileExists_present t (by simp [hf])
      rw [h1, h1]
    | none =>
      cases hw : t.fs.writeErr t.filename with
      | none =>
        have h1 : t.ensureFileExists.fs.files t.ensureFileExists.filename ≠ none := by
          rw [ensureFileExists_absent t hf]
          simp [ioutil.WriteFile, hw]
        rw [ensureFileExists_present _ h1]
      | some e =>
        have h1 : t.ensureFileExists.fs.files = t.fs.files := by
          rw [ensureFileExists_absent t hf]
          simp [ioutil.WriteFile, hw]
        have h2 : t.ensureFileExists.filename = t.filename := by
          rw [ensureFileExists_absent t hf]
        have h3 : t.ensureFileExists.fs.writeErr = t.fs.writeErr := by
          rw [ensureFileExists_absent t hf]
          simp [ioutil.WriteFile, hw]
        have h4 : t.ensureFileExists.fs.files t.ensureFileExists.filename = none := by
          rw [h1, h2, hf]
        rw [ensureFileExists_absent _ h4, h1]
        simp [ioutil.WriteFile, h2, h3, hw, h1]

theorem ensureFileExists_bootstrap_witness :
    freshHome.fs.files freshHome.filename = none ∧
    freshHome.fs.writeErr freshHome.filename = none ∧
    freshHome.ensureFileExists.fs.files freshHome.filename = some ⟨"[]", 0o600⟩ ∧
    started.fs.files started.filename ≠ none ∧
    started.ensureFileExists = started :=
  ⟨by decide, by decide,
    ((ensureFileExists_bootstrap freshHome).1 (by decide) (by decide)).1,
    by decide, (ensureFileExists_bootstrap started).2.1 (by decide)⟩

/-! ## Switching the tracked path (`setFilename`) -/

theorem Remove_of_watching (w : Watcher) (p : String) (hw : w.watched = [p]) :
    (w.Remove p).1.watched = [] ∧ (w.Remove p).1.addErr = w.addErr ∧
    (w.Remove p).2 = w.removeErr p := by
  cases hr : w.removeErr p <;> simp [Watcher.Remove, hr, hw]

theorem Add_of_empty (w : Watcher) (q : String) (hw : w.watched = []) :
    (∀ e, (w.Add q).2 = some e → (w.Add q).1.watched = []) ∧
    ((w.Add q).2 = none → (w.Add q).1.watched = [q]) := by
  cases ha : w.addErr q <;> simp [Watcher.Add, ha, hw]

theorem setFilename_remove_err (t : Todos) (q : String) (e : GoError)
    (hr : (t.watcher.Remove t.filename).2 = some e) :
    t.setFilename q = ({ t with watcher := (t.watcher.Remove t.filename).1 }, some e) := by
  unfold Todos.setFilename
  rcases hrm : t.watcher.Remove t.filename with ⟨w1, _ | e1⟩
  · simp [hrm] at hr
  · simp [hrm] at hr
    simp [hr]

theorem setFilename_add_err (t : Todos) (q : String) (e : GoError)
    (hr : (t.watcher.Remove t.filename).2 = none)
    (ha : ((t.watcher.Remove t.filename).1.Add q).2 = some e) :
    t.setFilename q =
      ({ t with watcher := ((t.watcher.Remove t.filename).1.Add q).1, filename := q },
        some e) := by
  unfold Todos.setFilename
  rcases hrm : t.watcher.Remove t.filename with ⟨w1, _ | e1⟩
  · rw [hrm] at ha
    rcases ham : w1.Add q with ⟨w2, _ | e2⟩
    · simp [ham] at ha
    · simp [ham] at ha
      simp [ham, ha]
  · simp [hrm] at hr

theorem setFilename_ok (t : Todos) (q : String)
    (hr : (t.watcher.Remove t.filename).2 = none)
    (ha : ((t.watcher.Remove t.filename).1.Add q).2 = none) :
    t.setFilename q =
      ((({ t with watcher := ((t.watcher.Remove t.filename).1.Add q).1,
                  filename := q } : Todos).logInfo ("Now watching: " ++ q)).setTitle q,
        none) := by
  unfold Todos.setFilename
  rcases hrm : t.watcher.Remove t.filename with ⟨w1, _ | e1⟩
  · rw [hrm] at ha
    rcases ham : w1.Add q with ⟨w2, _ | e2⟩
    · simp [ham]
    · simp [ham] at ha
  · simp [hrm] at hr

/-- C3, as stated, fails: when the kernel refuses to release the watch on
`/tmp/a.json`, `setFilename` returns that error and the watch set is empty
afterwards, not the tracked path alone, although the removal did not
succeed. -/
theorem setFilename_detach_failure_unwatched :
    stuck.watcher.watched = [stuck.filename] ∧
    (stuck.watcher.Remove stuck.filename).2 = some ⟨"invalid argument", false⟩ ∧
    (stuck.setFilename "/tmp/b.json").2 = some ⟨"invalid argument", false⟩ ∧
    (stuck.setFilename "/tmp/b.json").1.filename = stuck.filename ∧
    (stuck.setFilename "/tmp/b.json").1.watcher.watched = [] ∧
    (stuck.setFilename "/tmp/b.json").1.watcher.watched ≠ [stuck.filename] := by
  decide

/-- C3, amended. From a state that watches exactly the tracked path: when
removing the watch fails, `setFilename` returns that error at once, the tracked
path is as it was and the new path is not watched, but the watcher has dropped
the old path, so the watch set is empty; when the removal and the add both
succeed it returns no error, tracks the new path and watches exactly the new
path; the old and a different new path are never both watched afterwards; and
the watch set is empty afterwards only when the removal failed or the removal
succeeded and the add failed. -/
theorem setFilename_switch_atomicity (t : Todos) (q : String)
    (hw : t.watcher.watched = [t.filename]) :
    (∀ e, (t.watcher.Remove t.filename).2 = some e →
      (t.setFilename q).2 = some e ∧ (t.setFilename q).1.filename = t.filename ∧
      (t.setFilename q).1.watcher.watched = []) ∧
    ((t.watcher.Remove t.filename).2 = none →
      ((t.watcher.Remove t.filename).1.Add q).2 = none →
      (t.setFilename q).2 = none ∧ (t.setFilename q).1.filename = q ∧
      (t.setFilename q).1.watcher.watched = [q]) ∧
    (q ≠ t.filename →
      ¬ (t.filename ∈ (t.setFilename q).1.watcher.watched ∧
         q ∈ (t.setFilename q).1.watcher.watched)) ∧
    ((t.setFilename q).1.watcher.watched = [] →
      (t.watcher.Remove t.filename).2 ≠ none ∨
      ((t.watcher.Remove t.filename).2 = none ∧
        ((t.watcher.Remove t.filename).1.Add q).2 ≠ none)) := by
  have hempty := (Remove_of_watching t.watcher t.filename hw).1
  cases hr : (t.watcher.Remove t.filename).2 with
  | some e =>
    have hs := setFilename_remove_err t q e hr
    simp [hs, hempty]
  | none =>
    have hadd := Add_of_empty (t.watcher.Remove t.filename).1 q hempty
    cases ha : ((t.watcher.Remove t.filename).1.Add q).2 with
    | some e =>
      have hs := setFilename_add_err t q e hr ha
      have hnone := hadd.1 e ha
      simp [hs, hnone]
    | none =>
      have hs := setFilename_ok t q hr ha
      have hone := hadd.2 ha
      simp only [hs, Todos.logInfo, Todos.setTitle, hone]
      simp
      intro h1 h2
      exact h1 h2.symm

theorem setFilename_switch_atomicity_witness :
    twoLists.watcher.watched = [twoLists.filename] ∧
    ((stuck.setFilename "/tmp/b.json").2 = some ⟨"invalid argument", false⟩ ∧
      (stuck.setFilename "/tmp/b.json").1.filename = stuck.filename ∧
      (stuck.setFilename "/tmp/b.json").1.watcher.watched = []) ∧
    ((twoLists.setFilename "/tmp/b.json").2 = none ∧
      (twoLists.setFilename "/tmp/b.json").1.filename = "/tmp/b.json" ∧
      (twoLists.setFilename "/tmp/b.json").1.watcher.watched = ["/tmp/b.json"]) :=
  ⟨by decide,
    (setFilename_switch_atomicity stuck "/tmp/b.json" (by decide)).1
      ⟨"invalid argument", false⟩ (by decide),
    (setFilename_switch_atomicity twoLists "/tmp/b.json" (by decide)).2.1
      (by decide) (by decide)⟩

/-- C4, as stated, fails: when the watcher releases `/tmp/a.json` and then
cannot register `/tmp/b.json`, `setFilename` returns the error of the add and
no event at all has been emitted. -/
theorem setFilename_attach_failure_silent :
    (exhausted.watcher.Remove exhausted.filename).2 = none ∧
    ((exhausted.watcher.Remove exhausted.filename).1.Add "/tmp/b.json").2 = some enospc ∧
    (exhausted.setFilename "/tmp/b.json").2 = some enospc ∧
    (exhausted.setFilename "/tmp/b.json").1.runtime.events = [] := by
  decide

/-- C4, amended. When `setFilename` removes the watch on the old path and the
add on the new path fails, it returns the error of the add to its caller and
emits no event and logs nothing: the emitted events and the log are as before;
the tracked path is the new path. -/
theorem setFilename_attach_failure (t : Todos) (q : String) (e : GoError)
    (hr : (t.watcher.Remove t.filename).2 = none)
    (ha : ((t.watcher.Remove t.filename).1.Add q).2 = some e) :
    (t.setFilename q).2 = some e ∧
    (t.setFilename q).1.runtime.events = t.runtime.events ∧
    (t.setFilename q).1.logger = t.logger ∧
    (t.setFilename q).1.filename = q := by
  simp [setFilename_add_err t q e hr ha]

theorem setFilename_attach_failure_witness :
    (exhausted.setFilename "/tmp/b.json").2 = some enospc ∧
    (exhausted.setFilename "/tmp/b.json").1.runtime.events = exhausted.runtime.events ∧
    (exhausted.setFilename "/tmp/b.json").1.logger = exhausted.logger ∧
    (exhausted.setFilename "/tmp/b.json").1.filename = "/tmp/b.json" :=
  setFilename_attach_failure exhausted "/tmp/b.json" enospc (by decide) (by decide)

/-! ## Dialog-driven operations (`LoadNewList`, `SaveAs`) -/

theorem LoadNewList_cancelled (t : Todos) : t.LoadNewList "" = t := by
  simp [Todos.LoadNewList, String.utf8ByteSize, String.utf8ByteSize.go]

theorem SaveAs_attempts_write (t : Todos) (q s : String) :
    ∃ rest, (t.SaveAs q s).1.fs.writes = t.fs.writes ++ (q, s) :: rest := by
  unfold Todos.SaveAs
  cases hw : t.fs.writeErr q with
  | some e =>
    exact ⟨[], by simp [Todos.saveListByName, Todos.logInfo, ioutil.WriteFile, hw]⟩
  | none =>
    refine ⟨[], ?_⟩
    simp only [Todos.saveListByName, Todos.logInfo, ioutil.WriteFile, hw, Todos.setFilename]
    split <;> try split
    all_goals simp [Todos.logInfo, Todos.setTitle]

/-- C5, at the failing input: with the dialog cancelled (empty path),
`LoadNewList` leaves the state as it was, but `SaveAs` calls
`ioutil.WriteFile` on the empty path with the text to save, logs a line and
returns the error of that write. -/
theorem SaveAs_cancelled_attempts_write :
    started.LoadNewList "" = started ∧
    (started.SaveAs "" "[1]").1.fs.writes = [("", "[1]")] ∧
    (started.SaveAs "" "[1]").2 = some enoent ∧
    (started.SaveAs "" "[1]").1.logger = [⟨Level.info, "Save As: "⟩] :=
  ⟨rfl, by decide, by decide, by decide⟩

theorem SaveAs_write_ok (t : Todos) (q s : String)
    (hwrite : (ioutil.WriteFile t.fs q s 0o600).2 = none) :
    t.SaveAs q s =
      ({ t.logInfo ("Save As: " ++ q) with
          fs := (ioutil.WriteFile t.fs q s 0o600).1 } : Todos).setFilename q := by
  unfold Todos.SaveAs
  rcases hwf : ioutil.WriteFile t.fs q s 0o600 with ⟨fs1, _ | e⟩
  · simp [Todos.saveListByName, Todos.logInfo, hwf]
  · simp [hwf] at hwrite

theorem WriteFile_result_ok (fs : FileSystem) (q s : String) (perm : Nat)
    (h : (ioutil.WriteFile fs q s perm).2 = none) : fs.writeErr q = none := by
  cases hw : fs.writeErr q with
  | none => rfl
  | some e => simp [ioutil.WriteFile, hw] at h

/-- C6. From a state that watches exactly the tracked path `p`, for a dialog
result `q` that is non-empty and differs from `p`: when the write to `q`, the
removal of the watch on `p` and the add of the watch on `q` all succeed,
`SaveAs` returns no error, tracks `q`, watches exactly `q`, the file at `q`
holds exactly the text, and the file at `p` and at every path other than `q` is
as before. -/
theorem SaveAs_postcondition (t : Todos) (q s : String)
    (hw : t.watcher.watched = [t.filename]) (_hne : q ≠ "") (hp : q ≠ t.filename)
    (hwrite : (ioutil.WriteFile t.fs q s 0o600).2 = none)
    (hr : (t.watcher.Remove t.filename).2 = none)
    (ha : ((t.watcher.Remove t.filename).1.Add q).2 = none) :
    (t.SaveAs q s).2 = none ∧
    (t.SaveAs q s).1.filename = q ∧
    (t.SaveAs q s).1.watcher.watched = [q] ∧
    (∃ f, (t.SaveAs q s).1.fs.files q = some f ∧ f.content = s) ∧
    (t.SaveAs q s).1.fs.files t.filename = t.fs.files t.filename ∧
    ∀ r, r ≠ q → (t.SaveAs q s).1.fs.files r = t.fs.files r := by
  have hwe := WriteFile_result_ok t.fs q s 0o600 hwrite
  have hfile := WriteFile_ok t.fs q s 0o600 hwe
  have hempty := (Remove_of_watching t.watcher t.filename hw).1
  have hone := (Add_of_empty (t.watcher.Remove t.filename).1 q hempty).2 ha
  have hs := setFilename_ok
    ({ t.logInfo ("Save As: " ++ q) with fs := (ioutil.WriteFile t.fs q s 0o600).1 } : Todos)
    q hr ha
  rw [SaveAs_write_ok t q s hwrite, hs]
  simp only [Todos.logInfo, Todos.setTitle]
  exact ⟨trivial, trivial, hone, hfile.2.1, hfile.2.2 _ (Ne.symm hp), hfile.2.2⟩

theorem SaveAs_postcondition_witness :
    started.watcher.watched = [started.filename] ∧
    (started.SaveAs "/tmp/b.json" "[1]").2 = none ∧
    (started.SaveAs "/tmp/b.json" "[1]").1.filename = "/tmp/b.json" ∧
    (started.SaveAs "/tmp/b.json" "[1]").1.watcher.watched = ["/tmp/b.json"] ∧
    (∃ f, (started.SaveAs "/tmp/b.json" "[1]").1.fs.files "/tmp/b.json" = some f ∧
      f.content = "[1]") ∧
    (started.SaveAs "/tmp/b.json" "[1]").1.fs.files started.filename =
      started.fs.files started.filename :=
  have h := SaveAs_postcondition started "/tmp/b.json" "[1]" (by decide) (by decide)
    (by decide) (by decide) (by decide) (by decide)
  ⟨by decide, h.1, h.2.1, h.2.2.1, h.2.2.2.1, h.2.2.2.2.1⟩

/-! ## The dispatch loop (goroutine of `startWatcher`) -/

theorem dispatch_cons_event (Write : Nat) (t : Todos) (name : String) (op : Nat)
    (rs : List Recv) :
    t.dispatch Write (Recv.event name op :: rs) =
      if op &&& Write = Write then
        Todos.dispatch Write ((t.logInfo ("modified file: " ++ name)).emit "filemodified" []) rs
      else Todos.dispatch Write t rs := by
  by_cases h : op &&& Write = Write <;> simp [Todos.dispatch, Todos.dispatchStep, h]

theorem dispatch_cons_error (Write : Nat) (t : Todos) (err : GoError) (rs : List Recv) :
    t.dispatch Write (Recv.error err :: rs) = Todos.dispatch Write (t.logError err.msg) rs := by
  simp [Todos.dispatch, Todos.dispatchStep]

theorem countP_filemodified {α : Type} (l : List α) :
    (l.map (fun _ => (⟨"filemodified", []⟩ : Emitted))).countP
      (fun ev => decide (ev.name = "filemodified")) = l.length := by
  induction l with
  | nil => rfl
  | cons a l ih =>
    rw [List.map_cons, List.countP_cons_of_pos _ _ (by decide), ih, List.length_cons]

theorem dispatch_events (Write : Nat) (evs : List (String × Nat)) (t : Todos) :
    (t.dispatch Write (evs.map (fun e => Recv.event e.1 e.2))).2 = true ∧
    (t.dispatch Write (evs.map (fun e => Recv.event e.1 e.2))).1.runtime.events =
      t.runtime.events ++
        (evs.filter (fun e => decide (e.2 &&& Write = Write))).map
          (fun _ => (⟨"filemodified", []⟩ : Emitted)) ∧
    (t.dispatch Write (evs.map (fun e => Recv.event e.1 e.2))).1.logger =
      t.logger ++
        (evs.filter (fun e => decide (e.2 &&& Write = Write))).map
          (fun e => (⟨Level.info, "modified file: " ++ e.1⟩ : LogLine)) := by
  induction evs generalizing t with
  | nil => simp [Todos.dispatch]
  | cons e evs ih =>
    rw [List.map_cons, dispatch_cons_event]
    by_cases h : e.2 &&& Write = Write
    · obtain ⟨h1, h2, h3⟩ := ih ((t.logInfo ("modified file: " ++ e.1)).emit "filemodified" [])
      rw [if_pos h, List.filter_cons_of_pos (by simpa using h)]
      refine ⟨h1, ?_, ?_⟩
      · rw [h2]
        simp only [Todos.logInfo, Todos.emit, List.map_cons, List.append_assoc,
          List.singleton_append]
      · rw [h3]
        simp only [Todos.logInfo, Todos.emit, List.map_cons, List.append_assoc,
          List.singleton_append]
    · rw [if_neg h, List.filter_cons_of_neg (by simpa using h)]
      exact ih t

/-- C7. For every finite sequence of file-system events received by the
dispatch loop, the loop is still running afterwards and the events it has
emitted are the earlier ones followed by one `filemodified` for each received
event whose operation has the Write bit set, in order of reception (the log
names the files in that order); so the number of `filemodified` events emitted
is the number of such events, and events without the bit emit nothing. -/
theorem dispatch_write_events (Write : Nat) (t : Todos) (evs : List (String × Nat)) :
    (t.dispatch Write (evs.map (fun e => Recv.event e.1 e.2))).2 = true ∧
    (t.dispatch Write (evs.map (fun e => Recv.event e.1 e.2))).1.runtime.events =
      t.runtime.events ++
        (evs.filter (fun e => decide (e.2 &&& Write = Write))).map
          (fun _ => (⟨"filemodified", []⟩ : Emitted)) ∧
    (t.dispatch Write (evs.map (fun e => Recv.event e.1 e.2))).1.logger =
      t.logger ++
        (evs.filter (fun e => decide (e.2 &&& Write = Write))).map
          (fun e => (⟨Level.info, "modified file: " ++ e.1⟩ : LogLine)) ∧
    ((t.dispatch Write (evs.map (fun e => Recv.event e.1 e.2))).1.runtime.events.countP
        (fun ev => decide (ev.name = "filemodified")) =
      t.runtime.events.countP (fun ev => decide (ev.name = "filemodified")) +
        evs.countP (fun e => decide (e.2 &&& Write = Write))) := by
  have h := dispatch_events Write evs t
  refine ⟨h.1, h.2.1, h.2.2, ?_⟩
  rw [h.2.1, List.countP_append, List.countP_eq_length_filter (l := evs)]
  rw [countP_filemodified]

theorem dispatch_write_events_witness :
    (started.dispatch 2 [Recv.event "/tmp/a.json" 2, Recv.event "/tmp/a.json" 16,
      Recv.event "/tmp/a.json" 3]).1.runtime.events =
      [⟨"filemodified", []⟩, ⟨"filemodified", []⟩] ∧
    (started.dispatch 2 [Recv.event "/tmp/a.json" 2, Recv.event "/tmp/a.json" 16,
      Recv.event "/tmp/a.json" 3]).2 = true :=
  have h := dispatch_write_events 2 started
    [("/tmp/a.json", 2), ("/tmp/a.json", 16), ("/tmp/a.json", 3)]
  ⟨h.2.1, h.1⟩

/-- C8, as stated, fails: after the loop has received the watcher error
`boom`, no event at all has been emitted; the error is in the log. -/
theorem dispatch_error_not_emitted :
    (started.dispatch 2 [Recv.error ⟨"boom", false⟩]).1.runtime.events = [] ∧
    (started.dispatch 2 [Recv.error ⟨"boom", false⟩]).1.logger = [⟨Level.error, "boom"⟩] := by
  decide

/-- C8, amended. For every watcher error received on the open error channel,
the loop writes the description of the error to the log at error level, emits
no event, and keeps running: a write event received after the error still
produces its `filemodified` event. -/
theorem dispatch_watcher_error (Write : Nat) (t : Todos) (err : GoError)
    (name : String) (op : Nat) (hop : op &&& Write = Write) :
    (t.dispatch Write [Recv.error err]).2 = true ∧
    (t.dispatch Write [Recv.error err]).1.logger = t.logger ++ [⟨Level.error, err.msg⟩] ∧
    (t.dispatch Write [Recv.error err]).1.runtime.events = t.runtime.events ∧
    (t.dispatch Write [Recv.error err, Recv.event name op]).2 = true ∧
    (t.dispatch Write [Recv.error err, Recv.event name op]).1.runtime.events =
      t.runtime.events ++ [⟨"filemodified", []⟩] := by
  simp [dispatch_cons_error, dispatch_cons_event, hop, Todos.dispatch, Todos.logError,
    Todos.logInfo, Todos.emit, Todos.dispatchStep]

theorem dispatch_watcher_error_witness :
    (18 &&& 2 = 2) ∧
    (started.dispatch 2 [Recv.error enospc]).2 = true ∧
    (started.dispatch 2 [Recv.error enospc]).1.logger =
      started.logger ++ [⟨Level.error, enospc.msg⟩] ∧
    (started.dispatch 2 [Recv.error enospc]).1.runtime.events = started.runtime.events ∧
    (started.dispatch 2 [Recv.error enospc, Recv.event "/tmp/a.json" 18]).2 = true ∧
    (started.dispatch 2 [Recv.error enospc, Recv.event "/tmp/a.json" 18]).1.runtime.events =
      started.runtime.events ++ [⟨"filemodified", []⟩] :=
  ⟨by decide, dispatch_watcher_error 2 started enospc "/tmp/a.json" 18 (by decide)⟩

end WailsTodos
